import Mathlib

/-!
Shallow embedding of the client orchestration layer of the Streamlit
Sales ERP client (streamlit_app.py): the transport adapter (api_call),
the projects table renderer, the NLP chat console, and the sidebar
server-status indicator, together with theorems settling the frozen
claims about them.
-/

namespace AutoMCP

/-- Python values as they occur in the JSON payloads this client handles. -/
inductive PyValue where
  | none
  | bool (b : Bool)
  | int (n : Int)
  | str (s : String)
  | list (xs : List PyValue)
  | dict (kvs : List (String × PyValue))

/-- A Python dictionary, modelled as an insertion-ordered association list. -/
abbrev PyDict := List (String × PyValue)

/-- Lookup of a key in a dictionary, first match wins (dict keys are unique). -/
def lookupKey : PyDict → String → Option PyValue
  | [], _ => Option.none
  | (k, v) :: rest, key => if k = key then some v else lookupKey rest key

/-- Python truthiness of a value. -/
def truthy : PyValue → Bool
  | .none => false
  | .bool b => b
  | .int n => n != 0
  | .str s => s != ""
  | .list xs => !xs.isEmpty
  | .dict kvs => !kvs.isEmpty

/-- Truthiness of the result of dict.get with no default: an absent key
yields Python None, which is falsy. -/
def truthyOpt : Option PyValue → Bool
  | some v => truthy v
  | Option.none => false

/-- Model of value.get(key) on a value expected to be a dictionary
(calling .get on a non-dict raises in Python; the claims only exercise
dictionary-shaped responses). -/
def pyGet (v : PyValue) (k : String) : Option PyValue :=
  match v with
  | .dict kvs => lookupKey kvs k
  | _ => Option.none

/-- Model of value.get(key, default). -/
def pyGetD (v : PyValue) (k : String) (dflt : PyValue) : PyValue :=
  (pyGet v k).getD dflt

/-- Model of d.get(key, default) on a PyDict. -/
def dGetD (d : PyDict) (k : String) (dflt : PyValue) : PyValue :=
  (lookupKey d k).getD dflt

/-- Model of value.get(key, default-empty-dict) where the looked-up value is
used as a dictionary (a present non-dict value would raise in Python;
the backend contract supplies objects at these keys). -/
def getDict (v : PyValue) (k : String) : PyDict :=
  match pyGet v k with
  | some (.dict kvs) => kvs
  | _ => []

/-- Model of the Python key-containment test on a dictionary. -/
def hasKey (v : PyValue) (k : String) : Bool :=
  match v with
  | .dict kvs => kvs.any fun kv => kv.1 == k
  | _ => false

/-! ## Transport adapter (api_call, streamlit_app.py lines 73-92) -/

/-- API_BASE_URL constant from the source. -/
def API_BASE_URL : String := "http://localhost:8000"

/-- Outcome of the body parse of an HTTP response: response.json either
yields a JSON value or raises json.JSONDecodeError with the standard
message components (message, line, column, character position). -/
inductive Body where
  | json (v : PyValue)
  | malformed (msg : String) (line col pos : Nat)

/-- Transport-level outcome of one HTTP request, as surfaced by the
requests library: connection failure, timeout, or a final response with
a status code, a reason phrase and a body. -/
inductive HTTPOutcome where
  | connectionError
  | timeout
  | response (status : Nat) (reason : String) (body : Body)

/-- One HTTP request as issued by the adapter. -/
structure IssuedRequest where
  method : String
  url : String
  timeoutSeconds : Nat
  payload : Option PyValue

/-- Return value of api_call paired with the requests it issued. -/
structure CallResult where
  result : PyValue
  requests : List IssuedRequest

/-- The failure dictionary the adapter returns on every recovered error. -/
def errDict (msg : String) : PyValue :=
  .dict [("success", .bool false), ("error", .str msg)]

/-- Message of the HTTPError raised by response.raise_for_status for a
status code in the range 400-599 (the format used by the requests
library, caught by the generic handler and stringified). -/
def raise_for_status_message (status : Nat) (reason url : String) : String :=
  if status < 500 then
    toString status ++ " Client Error: " ++ reason ++ " for url: " ++ url
  else
    toString status ++ " Server Error: " ++ reason ++ " for url: " ++ url

/-- Message of json.JSONDecodeError as stringified by the generic handler. -/
def jsonDecodeMessage (msg : String) (line col pos : Nat) : String :=
  msg ++ ": line " ++ toString line ++ " column " ++ toString col ++
    " (char " ++ toString pos ++ ")"

/-- The try-block of api_call after the request was issued:
raise_for_status raises exactly for status codes 400-599, then
response.json is returned; every raised exception is caught and
normalized to the failure dictionary. -/
def handleResponse (url : String) : HTTPOutcome → PyValue
  | .connectionError =>
      errDict "Cannot connect to API server. Is it running on port 8000?"
  | .timeout => errDict "API request timed out"
  | .response status reason body =>
      if 400 ≤ status ∧ status < 600 then
        errDict (raise_for_status_message status reason url)
      else
        match body with
        | .json v => v
        | .malformed m l c p => errDict (jsonDecodeMessage m l c p)

/-- api_call from the source: dispatch on method, issue the request with
a 10 second timeout (GET without payload, POST with the json payload),
return the unknown-method failure dictionary without issuing a request
otherwise. -/
def api_call (endpoint method : String) (data : Option PyValue)
    (outcome : HTTPOutcome) : CallResult :=
  let url := API_BASE_URL ++ endpoint
  if method = "GET" then
    { result := handleResponse url outcome,
      requests := [{ method := "GET", url := url, timeoutSeconds := 10,
                     payload := Option.none }] }
  else if method = "POST" then
    { result := handleResponse url outcome,
      requests := [{ method := "POST", url := url, timeoutSeconds := 10,
                     payload := data }] }
  else
    { result := errDict ("Unknown method: " ++ method), requests := [] }

/-- Outcomes the adapter recovers into the failure dictionary: connection
failure, timeout, 4xx/5xx status, or a body that fails to parse as JSON. -/
def isTransportFailure : HTTPOutcome → Bool
  | .connectionError => true
  | .timeout => true
  | .response status _ body =>
      (400 ≤ status && status < 600) ||
        (match body with | .malformed .. => true | _ => false)

/-- process_nlp_message from the source (lines 105-110): POST the message
and the user id to the NLP endpoint. -/
def process_nlp_message (message : String) (user_id : Int)
    (outcome : HTTPOutcome) : CallResult :=
  api_call "/api/mcp/message" "POST"
    (some (.dict [("message", .str message), ("user_id", .int user_id)]))
    outcome

/-! ## Projects table (display_projects_table, lines 155-172) -/

/-- Digits of a number already reversed (least significant first), with a
comma inserted before every third digit, mirroring the Python format
specification with a comma grouping option. -/
def groupDigitsRev : Nat → List Char → List Char
  | _, [] => []
  | i, c :: cs =>
      if i ≠ 0 ∧ i % 3 = 0 then ',' :: c :: groupDigitsRev (i + 1) cs
      else c :: groupDigitsRev (i + 1) cs

/-- Decimal rendering of a natural number with thousands separators. -/
def natCommaFmt (n : Nat) : String :=
  String.mk ((groupDigitsRev 0 (Nat.toDigits 10 n).reverse).reverse)

/-- Decimal rendering of an integer with thousands separators, as produced
by the Python float format with comma grouping and zero decimals for an
integral value. -/
def intCommaFmt (n : Int) : String :=
  if n < 0 then "-" ++ natCommaFmt n.natAbs else natCommaFmt n.natAbs

/-- Numeric reading of a value for the currency format (the data model
declares estimated_value as optional numeric; Python bools count as 0/1
there, and the format call would raise on a non-numeric value, which is
outside the modelled contract). -/
def toIntD : PyValue → Int
  | .int n => n
  | .bool b => if b then 1 else 0
  | _ => 0

/-- The Value cell of one projects-table row: the currency rendering of
estimated_value when that value is truthy, the sentinel otherwise
(source line 167, a Python truthiness test, so 0 and None both fall to
the sentinel). -/
def valueCell (p : PyValue) : String :=
  if truthyOpt (pyGet p "estimated_value") then
    "₹" ++ intCommaFmt (toIntD (pyGetD p "estimated_value" (.int 0)))
  else "N/A"

/-- The Status cell: the status string upper-cased (line 166); a present
non-string status would raise in Python and is modelled as absent. -/
def statusCell (p : PyValue) : Option String :=
  match pyGetD p "status" (.str "N/A") with
  | .str s => some s.toUpper
  | _ => Option.none

/-- One row of the projects table (lines 162-170). -/
structure ProjectRow where
  project : PyValue
  client : PyValue
  status : Option String
  value : String

/-- Row built from one project dictionary. -/
def projectRow (p : PyValue) : ProjectRow :=
  { project := pyGetD p "name" (.str "N/A"),
    client := pyGetD p "client" (.str "N/A"),
    status := statusCell p,
    value := valueCell p }

/-- What the projects renderer displays. -/
inductive ProjectsRender where
  | emptyState (msg : String)
  | table (rows : List ProjectRow)

/-- display_projects_table from the source: the empty-state message and an
early return on an empty list, otherwise the table of rows. -/
def display_projects_table : List PyValue → ProjectsRender
  | [] => .emptyState "No projects found"
  | p :: ps => .table ((p :: ps).map projectRow)

/-! ## NLP chat console (display_nlp_chat, lines 237-307) -/

/-- Session state touched by the chat console. initialize_session
(lines 59-66) fills each missing key with its default. -/
structure SessionState where
  user_id : Int
  user_role : String
  chat_messages : List PyValue

/-- initialize_session applied to a fresh session: every key takes its
default (user id 1, role manager, empty history). -/
def initialSession : SessionState :=
  { user_id := 1, user_role := "manager", chat_messages := [] }

/-- Reserved keys excluded from the entity display (line 284). -/
def reservedKeys : List String :=
  ["intent", "action", "confidence", "original_message", "timestamp"]

/-- Underscores replaced with spaces, as in the Python replace call
(written over the character list so it evaluates by reduction). -/
def underscoresToSpaces (s : String) : String :=
  String.mk (s.data.map fun c => if c = '_' then ' ' else c)

/-- Title-casing pass over the characters: an alphabetic character is
upper-cased after a non-alphabetic position and lower-cased otherwise,
as the Python title method does for ASCII text. -/
def pyTitleAux : Bool → List Char → List Char
  | _, [] => []
  | prevAlpha, c :: cs =>
      if c.isAlpha then
        (if prevAlpha then c.toLower else c.toUpper) :: pyTitleAux true cs
      else c :: pyTitleAux false cs

/-- Python title method on a string. -/
def pyTitle (s : String) : String :=
  String.mk (pyTitleAux false s.data)

/-- Humanization of an entity key (line 287): underscores to spaces, then
title-cased. -/
def humanizeKey (k : String) : String :=
  pyTitle (underscoresToSpaces k)

/-- Entity rows rendered for a parsed mapping (lines 283-287): the pairs
whose key is outside the reserved set, each key humanized, in order. -/
def entityRowsOf (parsed : PyDict) : List (String × PyValue) :=
  (parsed.filter fun kv => decide (kv.1 ∉ reservedKeys)).map
    fun kv => (humanizeKey kv.1, kv.2)

/-- Execution block rendered when the execution result is truthy-successful
(lines 290-296): the action status plus the data map humanized under the
same rule; nothing otherwise. -/
def executionRowsOf (execution : PyDict) : Option (PyValue × List (String × PyValue)) :=
  if truthyOpt (lookupKey execution "success") then
    some (dGetD execution "action" (.str "N/A"),
      (getDict (.dict execution) "data").map fun kv => (humanizeKey kv.1, kv.2))
  else Option.none

/-- The success block rendered after a successful submission
(lines 267-296). The percent formatting of the confidence value is
floating-point presentation and is kept as the raw value here. -/
structure SuccessView where
  intent : PyValue
  action : PyValue
  confidence : PyValue
  entityRows : List (String × PyValue)
  executionView : Option (PyValue × List (String × PyValue))

/-- Result block of one submission: the success view, or the error banner
value (line 298, the error field with its default). -/
inductive SubmitRender where
  | success (v : SuccessView)
  | failure (errorValue : PyValue)

/-- What one pass of the chat console renders: the submission result block
when a submission was processed, and the history section, which shows the
last five records when the history is non-empty and the empty-state info
otherwise (lines 300-307). -/
structure ChatRender where
  submitted : Option SubmitRender
  historyShown : Option (List PyValue)

/-- The Python slice keeping the last n elements of a list. -/
def lastN (n : Nat) (l : List PyValue) : List PyValue :=
  l.drop (l.length - n)

/-- display_nlp_chat from the source: when the send button was pressed and
the message is truthy, the NLP POST is made and its result rendered
(success branch with parsed intent, entities and execution block, or the
error banner); the history section then renders from the session state.
The session state is returned as the function leaves it: the source
never writes to chat_messages. -/
def display_nlp_chat (s : SessionState) (sendButton : Bool) (message : String)
    (outcome : HTTPOutcome) : ChatRender × SessionState :=
  let submitted :=
    if sendButton && truthy (.str message) then
      let result := (process_nlp_message message s.user_id outcome).result
      if truthyOpt (pyGet result "success") then
        let parsed := getDict result "parsed"
        some (SubmitRender.success
          { intent := dGetD parsed "intent" (.str "N/A"),
            action := dGetD parsed "action" (.str "N/A"),
            confidence := dGetD parsed "confidence" (.int 0),
            entityRows := entityRowsOf parsed,
            executionView := executionRowsOf (getDict result "execution") })
      else
        some (SubmitRender.failure (pyGetD result "error" (.str "Unknown error")))
    else Option.none
  let historyShown :=
    match s.chat_messages with
    | [] => Option.none
    | m :: ms => some (lastN 5 (m :: ms))
  ({ submitted := submitted, historyShown := historyShown }, s)

/-! ## Sidebar server status (display_sidebar, lines 356-361) -/

/-- The server-status section of the sidebar. -/
inductive ServerStatusRender where
  | connected (version : PyValue)
  | disconnected

/-- The connectivity rendering decision from the source: connected when the
health response has a truthy success field or contains a status key,
disconnected otherwise; the connected banner carries the version field
with its default. -/
def serverStatus (health : PyValue) : ServerStatusRender :=
  if truthyOpt (pyGet health "success") || hasKey health "status" then
    .connected (pyGetD health "version" (.str "unknown"))
  else .disconnected

/-- A sample successful NLP backend response, used as a concrete outcome in
the evaluations below. -/
def exampleNlpBody : PyValue :=
  .dict
    [("success", .bool true),
     ("parsed", .dict
        [("intent", .str "assignment"),
         ("action", .str "assign_employee"),
         ("confidence", .int 1),
         ("employee", .str "Ramesh"),
         ("project", .str "Google")]),
     ("execution", .dict
        [("success", .bool true),
         ("action", .str "assigned"),
         ("data", .dict
            [("employee", .str "Ramesh"),
             ("project", .str "Google")])])]

/-- The sample response delivered as a clean 200 outcome. -/
def exampleOutcome : HTTPOutcome :=
  .response 200 "OK" (.json exampleNlpBody)

/-! ## Helper lemmas -/

/-- A string of length zero is the empty string. -/
theorem str_eq_empty_of_length_zero (s : String) (h : s.length = 0) : s = "" := by
  cases s with
  | mk data =>
    cases data with
    | nil => rfl
    | cons c cs => simp [String.length] at h

/-- The HTTPError message format is never the empty string. -/
theorem raise_for_status_message_ne_empty (status : Nat) (reason url : String) :
    raise_for_status_message status reason url ≠ "" := by
  unfold raise_for_status_message
  split <;>
  · intro h
    have hl := congrArg String.length h
    simp only [String.length_append] at hl
    have h1 : (" Client Error: " : String).length = 15 := rfl
    have h2 : (" Server Error: " : String).length = 15 := rfl
    have h0 : ("" : String).length = 0 := rfl
    omega

/-- The JSONDecodeError message format is never the empty string. -/
theorem jsonDecodeMessage_ne_empty (msg : String) (line col pos : Nat) :
    jsonDecodeMessage msg line col pos ≠ "" := by
  intro h
  have hl := congrArg String.length h
  unfold jsonDecodeMessage at hl
  simp only [String.length_append] at hl
  have h1 : (": line " : String).length = 7 := rfl
  have h0 : ("" : String).length = 0 := rfl
  omega

/-! ## Claim theorems -/

/-- C1 counterexample: a final 304 response with a valid JSON body is a
non-2xx backend outcome, yet api_call returns the body as-is, with no
success field and no error field, so the claim that every non-2xx call
yields a dictionary of the failure shape is false of the code
(raise_for_status raises only for status codes 400-599). -/
theorem c1_counterexample :
    (api_call "/health" "GET" Option.none
        (HTTPOutcome.response 304 "Not Modified"
          (Body.json (PyValue.dict [("status", PyValue.str "ok")])))).result
      = PyValue.dict [("status", PyValue.str "ok")]
    ∧ pyGet (api_call "/health" "GET" Option.none
        (HTTPOutcome.response 304 "Not Modified"
          (Body.json (PyValue.dict [("status", PyValue.str "ok")])))).result "success"
      = Option.none
    ∧ pyGet (api_call "/health" "GET" Option.none
        (HTTPOutcome.response 304 "Not Modified"
          (Body.json (PyValue.dict [("status", PyValue.str "ok")])))).result "error"
      = Option.none :=
  ⟨rfl, rfl, rfl⟩

/-- C1 (amended): for a supported method, every failing backend outcome in
the amended enumeration (connection refused, timeout, 4xx/5xx status, or
malformed body) makes api_call return the dictionary with success false
and a non-empty error string, and every call resolves to exactly one of
the two shapes: the failure dictionary or the parsed response body. -/
theorem c1_amended (endpoint method : String) (data : Option PyValue)
    (hm : method = "GET" ∨ method = "POST") :
    (∀ outcome : HTTPOutcome, isTransportFailure outcome = true →
        ∃ msg, (api_call endpoint method data outcome).result = errDict msg ∧ msg ≠ "")
    ∧ (∀ outcome : HTTPOutcome,
        (∃ msg, (api_call endpoint method data outcome).result = errDict msg)
        ∨ ∃ s rs v, outcome = HTTPOutcome.response s rs (Body.json v)
            ∧ (api_call endpoint method data outcome).result = v) := by
  have hres : ∀ outcome, (api_call endpoint method data outcome).result
      = handleResponse (API_BASE_URL ++ endpoint) outcome := by
    intro o
    rcases hm with h | h <;> subst h <;> rfl
  constructor
  · intro o ho
    rw [hres]
    cases o with
    | connectionError =>
      exact ⟨"Cannot connect to API server. Is it running on port 8000?", rfl, by decide⟩
    | timeout => exact ⟨"API request timed out", rfl, by decide⟩
    | response s r b =>
      by_cases hs : 400 ≤ s ∧ s < 600
      · refine ⟨raise_for_status_message s r (API_BASE_URL ++ endpoint), ?_,
          raise_for_status_message_ne_empty s r _⟩
        simp only [handleResponse, if_pos hs]
      · cases b with
        | json v =>
          exfalso
          simp only [isTransportFailure, Bool.or_eq_true, Bool.and_eq_true,
            decide_eq_true_eq] at ho
          rcases ho with ⟨h4, h6⟩ | h
          · exact hs ⟨h4, h6⟩
          · exact Bool.false_ne_true h
        | malformed m l c p =>
          refine ⟨jsonDecodeMessage m l c p, ?_, jsonDecodeMessage_ne_empty m l c p⟩
          simp only [handleResponse, if_neg hs]
  · intro o
    cases o with
    | connectionError =>
      exact Or.inl ⟨"Cannot connect to API server. Is it running on port 8000?",
        by rw [hres]; rfl⟩
    | timeout => exact Or.inl ⟨"API request timed out", by rw [hres]; rfl⟩
    | response s r b =>
      by_cases hs : 400 ≤ s ∧ s < 600
      · exact Or.inl ⟨raise_for_status_message s r (API_BASE_URL ++ endpoint),
          by rw [hres]; simp only [handleResponse, if_pos hs]⟩
      · cases b with
        | json v =>
          exact Or.inr ⟨s, r, v, rfl, by
            rw [hres]; simp only [handleResponse, if_neg hs]⟩
        | malformed m l c p =>
          exact Or.inl ⟨jsonDecodeMessage m l c p,
            by rw [hres]; simp only [handleResponse, if_neg hs]⟩

/-- C1 witness: the timeout outcome on a GET call concretely yields the
failure dictionary with a non-empty error string. -/
theorem c1_witness :
    ∃ msg, (api_call "/health" "GET" Option.none HTTPOutcome.timeout).result
      = errDict msg ∧ msg ≠ "" :=
  (c1_amended "/health" "GET" Option.none (Or.inl rfl)).1 HTTPOutcome.timeout rfl

/-- C2: the chat console never appends a record to the session history.
Submitting a command that receives a successful backend response leaves
chat_messages empty (length 0, not 1), even though the submission was
processed and its result block rendered. The source initializes and
renders a message history but contains no append, so the claimed and
clearly intended append is missing. -/
theorem c2_code_bug :
    ((display_nlp_chat initialSession true "Ramesh is assigned to Google project"
        exampleOutcome).2).chat_messages = ([] : List PyValue)
    ∧ ((display_nlp_chat initialSession true "Ramesh is assigned to Google project"
        exampleOutcome).1).submitted.isSome = true :=
  ⟨rfl, rfl⟩

/-- C3 counterexample: the error string on timeout is the sentence from the
source, not the exact string named by the claim, and likewise for the
connection-failure string. -/
theorem c3_counterexample :
    pyGet (api_call "/api/mcp/message" "POST"
        (some (PyValue.dict [("message", PyValue.str "hello"), ("user_id", PyValue.int 1)]))
        HTTPOutcome.timeout).result "error"
      = some (PyValue.str "API request timed out")
    ∧ ("API request timed out" : String) ≠ "timeout"
    ∧ pyGet (api_call "/health" "GET" Option.none HTTPOutcome.connectionError).result "error"
      = some (PyValue.str "Cannot connect to API server. Is it running on port 8000?")
    ∧ ("Cannot connect to API server. Is it running on port 8000?" : String)
      ≠ "connection unavailable" :=
  ⟨rfl, by decide, rfl, by decide⟩

/-- C3 (amended): on timeout the error string is exactly the source
sentence about the request timing out; on connection failure it is
exactly the source sentence about not reaching the API server; and every
issued request carries the fixed 10 second timeout. -/
theorem c3_amended (endpoint : String) (data : Option PyValue) (method : String)
    (hm : method = "GET" ∨ method = "POST") :
    (api_call endpoint method data HTTPOutcome.timeout).result
      = errDict "API request timed out"
    ∧ (api_call endpoint method data HTTPOutcome.connectionError).result
      = errDict "Cannot connect to API server. Is it running on port 8000?"
    ∧ ∀ (outcome : HTTPOutcome) (r : IssuedRequest),
        r ∈ (api_call endpoint method data outcome).requests → r.timeoutSeconds = 10 := by
  rcases hm with h | h <;> subst h
  · refine ⟨rfl, rfl, ?_⟩
    intro o r hr
    have hreq : (api_call endpoint "GET" data o).requests
        = [{ method := "GET", url := API_BASE_URL ++ endpoint, timeoutSeconds := 10,
             payload := Option.none }] := rfl
    rw [hreq, List.mem_singleton] at hr
    rw [hr]
  · refine ⟨rfl, rfl, ?_⟩
    intro o r hr
    have hreq : (api_call endpoint "POST" data o).requests
        = [{ method := "POST", url := API_BASE_URL ++ endpoint, timeoutSeconds := 10,
             payload := data }] := rfl
    rw [hreq, List.mem_singleton] at hr
    rw [hr]

/-- C3 witness: the timeout case evaluated at a concrete GET call. -/
theorem c3_witness :
    (api_call "/health" "GET" Option.none HTTPOutcome.timeout).result
      = errDict "API request timed out" :=
  (c3_amended "/health" Option.none "GET" (Or.inl rfl)).1

/-- C4 counterexample: a zero estimated_value renders as the sentinel, not
as a currency amount, because the source guards the currency format with
a Python truthiness test and 0 is falsy. -/
theorem c4_counterexample :
    valueCell (PyValue.dict [("estimated_value", PyValue.int 0)]) = "N/A" :=
  rfl

/-- C4 (amended): an estimated_value of 120000 renders with the currency
symbol, thousands separators and no decimals; a missing or None value
renders as the sentinel; and a zero value also renders as the sentinel,
indistinguishable from the missing case. -/
theorem c4_amended (p : PyValue) :
    (pyGet p "estimated_value" = some (PyValue.int 120000) → valueCell p = "₹120,000")
    ∧ (pyGet p "estimated_value" = Option.none ∨ pyGet p "estimated_value" = some PyValue.none →
        valueCell p = "N/A")
    ∧ (pyGet p "estimated_value" = some (PyValue.int 0) → valueCell p = "N/A") := by
  refine ⟨?_, ?_, ?_⟩
  · intro h
    unfold valueCell pyGetD
    rw [h]
    rfl
  · rintro (h | h) <;> unfold valueCell <;> rw [h] <;> rfl
  · intro h
    unfold valueCell
    rw [h]
    rfl

/-- C4 witness: the amended rendering rules evaluated at concrete project
dictionaries. -/
theorem c4_witness :
    valueCell (PyValue.dict [("estimated_value", PyValue.int 120000)]) = "₹120,000"
    ∧ valueCell (PyValue.dict []) = "N/A" :=
  ⟨(c4_amended _).1 rfl, (c4_amended _).2.1 (Or.inl rfl)⟩

/-- C6: the rendered entity rows are exactly the parsed pairs whose key is
outside the reserved set, each label the humanized key; the key
pending_payments_count humanizes to the claimed label; the execution
block, rendered exactly when the execution success field is truthy,
applies the same humanization to the data map; and the chat console
success branch renders these rows for every successful parsed response. -/
theorem c6_theorem :
    (∀ (parsed : PyDict) (l : String) (v : PyValue),
        (l, v) ∈ entityRowsOf parsed ↔
          ∃ k, (k, v) ∈ parsed ∧ k ∉ reservedKeys ∧ l = humanizeKey k)
    ∧ humanizeKey "pending_payments_count" = "Pending Payments Count"
    ∧ (∀ (execution : PyDict) (act : PyValue) (rows : List (String × PyValue)),
        executionRowsOf execution = some (act, rows) →
          truthyOpt (lookupKey execution "success") = true
          ∧ rows = (getDict (.dict execution) "data").map
              fun kv => (humanizeKey kv.1, kv.2))
    ∧ (∀ parsed execution : PyDict,
        (display_nlp_chat initialSession true "Ramesh is assigned to Google project"
            (HTTPOutcome.response 200 "OK" (Body.json (PyValue.dict
              [("success", PyValue.bool true),
               ("parsed", PyValue.dict parsed),
               ("execution", PyValue.dict execution)])))).1.submitted
          = some (SubmitRender.success
              { intent := dGetD parsed "intent" (PyValue.str "N/A"),
                action := dGetD parsed "action" (PyValue.str "N/A"),
                confidence := dGetD parsed "confidence" (PyValue.int 0),
                entityRows := entityRowsOf parsed,
                executionView := executionRowsOf execution })) := by
  refine ⟨?_, rfl, ?_, ?_⟩
  · intro parsed l v
    constructor
    · intro h
      simp only [entityRowsOf, List.mem_map] at h
      obtain ⟨⟨k, v2⟩, hmem, heq⟩ := h
      rw [List.mem_filter] at hmem
      obtain ⟨hp, hres⟩ := hmem
      obtain ⟨h1, h2⟩ := Prod.mk.injEq .. ▸ heq
      exact ⟨k, h2 ▸ hp, of_decide_eq_true hres, h1.symm⟩
    · rintro ⟨k, hmem, hres, hl⟩
      simp only [entityRowsOf, List.mem_map]
      refine ⟨(k, v), ?_, ?_⟩
      · rw [List.mem_filter]
        exact ⟨hmem, decide_eq_true hres⟩
      · rw [hl]
  · intro execution act rows h
    unfold executionRowsOf at h
    split at h
    · next hc =>
      simp only [Option.some.injEq, Prod.mk.injEq] at h
      exact ⟨hc, h.2.symm⟩
    · exact absurd h (by simp)
  · intro parsed execution
    rfl

/-- C6 witness: the execution-block characterization applied at a concrete
successful execution result. -/
theorem c6_witness :
    truthyOpt (lookupKey
        [("success", PyValue.bool true), ("action", PyValue.str "assigned"),
         ("data", PyValue.dict [("employee", PyValue.str "Ramesh")])] "success") = true
    ∧ [("Employee", PyValue.str "Ramesh")]
      = (getDict (.dict
          [("success", PyValue.bool true), ("action", PyValue.str "assigned"),
           ("data", PyValue.dict [("employee", PyValue.str "Ramesh")])]) "data").map
          fun kv => (humanizeKey kv.1, kv.2) :=
  c6_theorem.2.2.1
    [("success", PyValue.bool true), ("action", PyValue.str "assigned"),
     ("data", PyValue.dict [("employee", PyValue.str "Ramesh")])]
    (PyValue.str "assigned") [("Employee", PyValue.str "Ramesh")] rfl

/-- C7: after submitting the commands C1, C2 and C3 in order from a fresh
session, the history view renders its empty-state (no records at all)
rather than the three records in order, because no submission ever
appends to the retained history; the retained history itself is still
empty after the three submissions. -/
theorem c7_code_bug :
    ((display_nlp_chat (display_nlp_chat (display_nlp_chat initialSession
        true "C1" exampleOutcome).2 true "C2" exampleOutcome).2
        true "C3" exampleOutcome).1).historyShown = Option.none
    ∧ ((display_nlp_chat (display_nlp_chat (display_nlp_chat initialSession
        true "C1" exampleOutcome).2 true "C2" exampleOutcome).2
        true "C3" exampleOutcome).2).chat_messages = ([] : List PyValue) :=
  ⟨rfl, rfl⟩

/-- C8: the projects renderer shows the explicit empty-state message
exactly when the projects sequence is empty, and builds the table of
rows exactly when it is non-empty. -/
theorem c8_theorem (projects : List PyValue) :
    (display_projects_table projects = ProjectsRender.emptyState "No projects found"
      ↔ projects = [])
    ∧ (projects ≠ [] →
        display_projects_table projects = ProjectsRender.table (projects.map projectRow)) := by
  cases projects with
  | nil =>
    refine ⟨?_, fun h => absurd rfl h⟩
    simp [display_projects_table]
  | cons p ps =>
    refine ⟨?_, fun _ => rfl⟩
    constructor
    · intro h
      simp [display_projects_table] at h
    · intro h
      exact absurd h (List.cons_ne_nil p ps)

/-- C8 witness: a one-element projects list concretely renders as a table. -/
theorem c8_witness :
    display_projects_table [PyValue.dict [("name", PyValue.str "Alpha")]]
      = ProjectsRender.table ([PyValue.dict [("name", PyValue.str "Alpha")]].map projectRow) :=
  (c8_theorem _).2 (List.cons_ne_nil _ _)

/-- C9: for any method other than GET or POST, api_call returns the
unknown-method failure dictionary and issues no HTTP request at all. -/
theorem c9_theorem (endpoint method : String) (data : Option PyValue)
    (outcome : HTTPOutcome) (h1 : method ≠ "GET") (h2 : method ≠ "POST") :
    (api_call endpoint method data outcome).result
      = errDict ("Unknown method: " ++ method)
    ∧ (api_call endpoint method data outcome).requests = [] := by
  unfold api_call
  rw [if_neg h1, if_neg h2]
  exact ⟨rfl, rfl⟩

/-- C9 witness: a DELETE call concretely returns the unknown-method
failure and issues no request. -/
theorem c9_witness :
    (api_call "/api/users" "DELETE" Option.none HTTPOutcome.timeout).result
      = errDict ("Unknown method: " ++ "DELETE")
    ∧ (api_call "/api/users" "DELETE" Option.none HTTPOutcome.timeout).requests = [] :=
  c9_theorem "/api/users" "DELETE" Option.none HTTPOutcome.timeout (by decide) (by decide)

/-- C10: the sidebar renders the connected state exactly when the health
response has a truthy success field or contains a status key; the
documented health shape with status and version but no success field is
rendered connected with its version; and every failure dictionary from
the adapter (success false, no status key) renders disconnected. -/
theorem c10_theorem :
    (∀ health : PyValue,
        (∃ v, serverStatus health = ServerStatusRender.connected v) ↔
          (truthyOpt (pyGet health "success") || hasKey health "status") = true)
    ∧ serverStatus (PyValue.dict
        [("status", PyValue.str "healthy"), ("version", PyValue.str "1.0.0")])
      = ServerStatusRender.connected (PyValue.str "1.0.0")
    ∧ ∀ msg : String, serverStatus (errDict msg) = ServerStatusRender.disconnected := by
  refine ⟨?_, rfl, fun msg => rfl⟩
  intro health
  constructor
  · rintro ⟨v, hv⟩
    by_cases hcond : (truthyOpt (pyGet health "success") || hasKey health "status") = true
    · exact hcond
    · exfalso
      unfold serverStatus at hv
      rw [if_neg hcond] at hv
      exact ServerStatusRender.noConfusion hv
  · intro hcond
    exact ⟨_, by unfold serverStatus; rw [if_pos hcond]⟩

end AutoMCP
